import Mathlib

/-!
Shallow embedding of the application-delegation workflow engine of the
cdrr-engine-be backend (FastAPI + SQLAlchemy), together with proofs about
its deck, evaluate and listing operations.

Conventions of the embedding:
* SQL `DateTime` values are modelled as integers (`PyTime`); "now" is an
  explicit parameter of every operation that calls `datetime.now()`.
* Nullable text columns are `Option String`; nullable datetime columns are
  `Option PyTime`.
* A database table is a list of rows; `Query.first()` is `List.find?`,
  mutating the object returned by `first()` and committing is replacing the
  first matching row.
* Python truthiness of an optional string (`if s:`) is `s` being `some`
  of a non-empty string; `bool(s and s.strip())` is `s` holding at least
  one non-whitespace character.
-/

/-- Timestamps (`datetime` values) are modelled as integers. -/
abbrev PyTime := Int

/-- Models `bool(s and s.strip())` for an `Optional[str]`: true iff the
value is a string holding at least one non-whitespace character. -/
def hasNonWs : Option String → Bool
  | none => false
  | some s => s.data.any (fun c => !c.isWhitespace)

/-- Models Python string truthiness `if s:` for an `Optional[str]`. -/
def pyTruthy : Option String → Bool
  | none => false
  | some s => !(s = "")

/-- Models the f-string rendering of an `Optional[str]` (None prints as
the text `None`). -/
def pyShowOptStr : Option String → String
  | none => "None"
  | some s => s

/-- Models the f-string rendering of an `Optional[int]`. -/
def pyShowOptInt : Option Int → String
  | none => "None"
  | some n => toString n

/-- Models `x or ""` applied to an `Optional[str]` field. -/
def orEmpty : Option String → String
  | none => ""
  | some s => s

/-- Numeric value of a list of decimal digit characters. -/
def natOfDigits (l : List Char) : Nat :=
  l.foldl (fun a c => a * 10 + (c.toNat - 48)) 0

/-- True iff the list is non-empty and all characters are ASCII digits. -/
def allDigits (l : List Char) : Bool :=
  !l.isEmpty && l.all (fun c => c.isDigit)

/-- Gregorian leap-year rule used by `datetime`. -/
def isLeap (y : Nat) : Bool :=
  y % 4 = 0 && (y % 100 ≠ 0 || y % 400 = 0)

/-- Number of days of a month, as validated by the `datetime` constructor. -/
def daysInMonth (y m : Nat) : Nat :=
  if m = 2 then (if isLeap y then 29 else 28)
  else if m = 4 || m = 6 || m = 9 || m = 11 then 30
  else 31

/-- Year field of `strptime(s, "%Y-%m-%d")`: exactly four digits, and the
`datetime` constructor additionally requires `year >= 1`. -/
def yearOfPart (l : List Char) : Option Nat :=
  if allDigits l && l.length = 4 && 1 ≤ natOfDigits l then some (natOfDigits l) else none

/-- Month field: the regex `1[0-2]|0[1-9]|[1-9]`, i.e. one or two digits
with value 1..12. -/
def monthOfPart (l : List Char) : Option Nat :=
  if allDigits l && l.length ≤ 2 && 1 ≤ natOfDigits l && natOfDigits l ≤ 12 then
    some (natOfDigits l)
  else none

/-- Day field: the regex `3[01]|[12]\d|0[1-9]|[1-9]`, i.e. one or two
digits with value 1..31 (month-dependent range checked separately). -/
def dayOfPart (l : List Char) : Option Nat :=
  if allDigits l && l.length ≤ 2 && 1 ≤ natOfDigits l && natOfDigits l ≤ 31 then
    some (natOfDigits l)
  else none

/-- A calendar date produced by a successful `strptime(s, "%Y-%m-%d")`. -/
structure YmdDate where
  year : Nat
  month : Nat
  day : Nat
deriving DecidableEq

/-- Models `datetime.strptime(s, "%Y-%m-%d")`: `none` is the `ValueError`
outcome. The format anchors the whole string, so the string must be
year-month-day separated by single dashes, and the day must exist in the
given month. -/
def parseYMD (s : String) : Option YmdDate :=
  match s.data.splitOn (Char.ofNat 45) with
  | [ys, ms, ds] =>
    match yearOfPart ys, monthOfPart ms, dayOfPart ds with
    | some y, some m, some d => if d ≤ daysInMonth y m then some ⟨y, m, d⟩ else none
    | _, _, _ => none
  | _ => none

/-- Injection of a parsed midnight date into the timestamp domain. -/
def dateToDT (d : YmdDate) : PyTime :=
  ((d.year * 10000 + d.month * 100 + d.day : Nat) : Int)

/-- One row of the `application_delegation` table.  `DB_DATE_DECKED` is not
a declared column of the SQLAlchemy model, but the deck operation assigns
that attribute on the Python object, so the embedding keeps it as part of
the in-memory record state.  `main_dtn` stands for `record.main.DB_DTN`,
the tracking number of the parent `main_db` row reached through the
relationship (`none` when the parent row or its DTN is absent). -/
structure DelegationRecord where
  DB_MAIN_ID : Int
  main_dtn : Option Int := none
  DB_DECKER : Option String := none
  DB_DECKER_DECISION : Option String := none
  DB_DECKER_REMARKS : Option String := none
  DB_DATE_DECKED : Option PyTime := none
  DB_DATE_DECKED_END : Option PyTime := none
  DB_EVALUATOR : Option String := none
  DB_EVAL_DECISION : Option String := none
  DB_EVAL_REMARKS : Option String := none
  DB_DATE_EVAL_END : Option PyTime := none
  DB_CHECKER : Option String := none
  DB_CHECKER_DECISION : Option String := none
  DB_CHECKER_REMARKS : Option String := none
  DB_DATE_CHECKER_END : Option PyTime := none
  DB_SUPERVISOR : Option String := none
  DB_SUPERVISOR_DECISION : Option String := none
  DB_SUPERVISOR_REMARKS : Option String := none
  DB_DATE_SUPERVISOR_END : Option PyTime := none
  DB_QA : Option String := none
  DB_QA_DECISION : Option String := none
  DB_QA_REMARKS : Option String := none
  DB_DATE_QA_END : Option PyTime := none
  DB_DIRECTOR : Option String := none
  DB_DIRECTOR_DECISION : Option String := none
  DB_DIRECTOR_REMARKS : Option String := none
  DB_DATE_DIRECTOR_END : Option PyTime := none
  DB_RELEASING_OFFICER : Option String := none
  DB_RELEASING_OFFICER_DECISION : Option String := none
  DB_RELEASING_OFFICER_REMARKS : Option String := none
  DB_RELEASING_OFFICER_END : Option PyTime := none
deriving DecidableEq

/-- The `application_delegation` table. -/
abbrev DelegationTable := List DelegationRecord

/-- Row predicate for `filter(ApplicationDelegation.DB_MAIN_ID == id)`. -/
def byMainId (i : Int) (r : DelegationRecord) : Bool :=
  r.DB_MAIN_ID == i

/-- Replaces the first row satisfying `p` by its image under `f`; this is
the embedding of mutating the object returned by `Query.first()` and
committing the session. -/
def updateFirst (p : α → Bool) (f : α → α) : List α → List α
  | [] => []
  | r :: rest => if p r then f r :: rest else r :: updateFirst p f rest

/-- Request body of `PATCH /deck/single/{id}` (`DeckApplicationRequest`);
defaults mirror the pydantic field defaults. -/
structure DeckApplicationRequest where
  decker : String
  evaluator : String
  deckerDecision : String
  deckerRemarks : Option String := some ""
  dateDeckedEnd : Option String := none
deriving DecidableEq

/-- Request body of `PATCH /deck/bulk` (`BulkDeckApplicationRequest`). -/
structure BulkDeckApplicationRequest where
  decker : String
  evaluator : String
  deckerDecision : String
  deckerRemarks : Option String := some ""
  dateDeckedEnd : Option String := none
  record_ids : List Int
deriving DecidableEq

/-- Result dictionary of the single deck operation (the transient
`record` key is omitted; it is never read by callers of the embedding). -/
structure DeckResult where
  success : Bool
  message : String
  updated_count : Nat
deriving DecidableEq

/-- The per-id entry the bulk deck operation appends to `details`. -/
structure DeckDetail where
  id : Int
  dtn : Option Int
  status : String
  evaluator : Option String := none
  previous_evaluator : Option String := none
  reason : Option String := none
deriving DecidableEq

/-- Result dictionary of the bulk deck operation. -/
structure BulkDeckResult where
  success : Bool
  message : String
  updated_count : Nat
  failed_count : Nat
  details : List DeckDetail
deriving DecidableEq

/-- Source: `DeckCRUD.check_if_already_decked`, i.e.
`bool(record.DB_EVALUATOR and record.DB_EVALUATOR.strip() and record.DB_EVALUATOR != "N/A")`. -/
def check_if_already_decked (r : DelegationRecord) : Bool :=
  hasNonWs r.DB_EVALUATOR && !(r.DB_EVALUATOR == some "N/A")

/-- The `DB_DATE_DECKED_END` value computed by the deck operations:
`strptime(dateDeckedEnd, "%Y-%m-%d")` when the field is truthy and parses,
`datetime.now()` otherwise. -/
def deckEndDate (dateDeckedEnd : Option String) (now : PyTime) : PyTime :=
  match dateDeckedEnd with
  | some s =>
    if s = "" then now
    else match parseYMD s with
      | some d => dateToDT d
      | none => now
  | none => now

/-- The record mutation performed by both deck operations on one row. -/
def deckMutate (data : DeckApplicationRequest) (now : PyTime) (r : DelegationRecord) :
    DelegationRecord :=
  { r with
    DB_EVALUATOR := some data.evaluator
    DB_DECKER := some data.decker
    DB_DECKER_DECISION := some data.deckerDecision
    DB_DECKER_REMARKS := some (orEmpty data.deckerRemarks)
    DB_DATE_DECKED := some now
    DB_DATE_DECKED_END := some (deckEndDate data.dateDeckedEnd now) }

/-- Source: `DeckCRUD.deck_single_application`.  Returns the result
dictionary together with the table state after the commit. -/
def deck_single_application (db : DelegationTable) (db_main_id : Int)
    (deck_data : DeckApplicationRequest) (now : PyTime) :
    DeckResult × DelegationTable :=
  match db.find? (byMainId db_main_id) with
  | none =>
    (⟨false,
      "Application record with DB_MAIN_ID " ++ toString db_main_id ++ " not found",
      0⟩, db)
  | some record =>
    let already_decked := check_if_already_decked record
    let previous_evaluator := if already_decked then record.DB_EVALUATOR else none
    let base := "Application (DTN: " ++ pyShowOptInt record.main_dtn ++ ") decked successfully"
    let message :=
      if already_decked then
        base ++ " (was previously decked by: " ++ pyShowOptStr previous_evaluator ++ ")"
      else base
    (⟨true, message, 1⟩, updateFirst (byMainId db_main_id) (deckMutate deck_data now) db)

/-- The view of a bulk deck request as the single-record request its
per-row mutation uses. -/
def bulkDeckData (b : BulkDeckApplicationRequest) : DeckApplicationRequest :=
  ⟨b.decker, b.evaluator, b.deckerDecision, b.deckerRemarks, b.dateDeckedEnd⟩

/-- Source: `DeckCRUD.bulk_deck_applications`.  Fetches every row whose
`DB_MAIN_ID` is in `record_ids` (ids without a row are simply not in the
result of the `IN` query), mutates each fetched row, and commits once at
the end when at least one row was updated.  Per-row exceptions cannot
occur in the pure embedding, so the failure branch of the loop is not
represented and `failed_count` stays 0 whenever rows were found. -/
def bulk_deck_applications (db : DelegationTable)
    (bulk_data : BulkDeckApplicationRequest) (now : PyTime) :
    BulkDeckResult × DelegationTable :=
  if bulk_data.record_ids = [] then
    (⟨false, "No record IDs provided", 0, 0, []⟩, db)
  else
    let records := db.filter (fun r => bulk_data.record_ids.contains r.DB_MAIN_ID)
    if records = [] then
      (⟨false, "No application records found", 0, bulk_data.record_ids.length, []⟩, db)
    else
      let details := records.map (fun r =>
        ({ id := r.DB_MAIN_ID
           dtn := r.main_dtn
           status := "success"
           evaluator := some bulk_data.evaluator
           previous_evaluator :=
             if check_if_already_decked r then r.DB_EVALUATOR else none } : DeckDetail))
      let updated_count := records.length
      let committed := db.map (fun r =>
        if bulk_data.record_ids.contains r.DB_MAIN_ID then
          deckMutate (bulkDeckData bulk_data) now r
        else r)
      (⟨true, "Successfully decked " ++ toString updated_count ++ " application(s)",
        updated_count, 0, details⟩, committed)

/-- Request body of `PATCH /evaluation/single/{id}` (`EvaluationRequest`);
defaults mirror the pydantic field defaults (`eval_remarks` defaults to
the empty string, `checker` defaults to `None`). -/
structure EvaluationRequest where
  evaluator : String
  eval_decision : String
  eval_remarks : Option String := some ""
  date_eval_end : Option String := none
  checker : Option String := none
deriving DecidableEq

/-- Request body of `PATCH /evaluation/bulk` (`BulkEvaluationRequest`). -/
structure BulkEvaluationRequest where
  evaluator : String
  eval_decision : String
  eval_remarks : Option String := some ""
  date_eval_end : Option String := none
  checker : Option String := none
  record_ids : List Int
deriving DecidableEq

/-- Result dictionary of the single evaluate operation. -/
structure EvalResult where
  success : Bool
  message : String
  updated_count : Nat
deriving DecidableEq

/-- Source: `BulkEvaluationDetail` pydantic schema. -/
structure BulkEvaluationDetail where
  id : Int
  status : String
  reason : Option String := none
deriving DecidableEq

/-- Result dictionary of the bulk evaluate operation. -/
structure BulkEvalResult where
  success : Bool
  message : String
  updated_count : Nat
  failed_count : Nat
  details : List BulkEvaluationDetail
deriving DecidableEq

/-- Source: `EvaluationBase.validate_date_format`, a pydantic field
validator: a present date string must satisfy
`strptime(v, "%Y-%m-%d")` or the request is rejected. -/
def validate_date_format (v : Option String) : Except String (Option String) :=
  match v with
  | none => Except.ok none
  | some s =>
    match parseYMD s with
    | some _ => Except.ok (some s)
    | none => Except.error "Date must be in YYYY-MM-DD format"

/-- Source: `EvaluationBase.validate_decision`: the decision must contain
a non-whitespace character and is stored stripped; the embedding keeps the
original string since no proved claim inspects the stripping. -/
def validate_decision (v : String) : Except String String :=
  if hasNonWs (some v) then Except.ok v
  else Except.error "Evaluation decision cannot be empty"

/-- Source: `BulkEvaluationRequest.validate_record_ids`: the id list must
be non-empty, duplicate-free and all-positive. -/
def validate_record_ids (v : List Int) : Except String (List Int) :=
  if v = [] then Except.error "At least one record ID is required"
  else if !v.Nodup then Except.error "Duplicate record IDs are not allowed"
  else if v.any (fun rid => rid ≤ 0) then
    Except.error "All record IDs must be positive integers"
  else Except.ok v

/-- Source: `EvaluationCRUD.is_decked`, i.e.
`bool(record.DB_EVALUATOR and record.DB_EVALUATOR.strip())`.  Note that,
unlike `check_if_already_decked` on the deck side, this does not exclude
the sentinel `"N/A"`. -/
def is_decked (r : DelegationRecord) : Bool :=
  hasNonWs r.DB_EVALUATOR

/-- Source: `EvaluationCRUD.is_already_evaluated` (never consulted by the
evaluate operations; kept because the status endpoint reads it). -/
def is_already_evaluated (r : DelegationRecord) : Bool :=
  hasNonWs r.DB_EVAL_DECISION

/-- Source: `EvaluationCRUD.parse_date`: parse a truthy date string as
`%Y-%m-%d`, falling back to `datetime.now()` when the string is absent,
empty or unparseable. -/
def parse_date (date_str : Option String) (now : PyTime) : PyTime :=
  match date_str with
  | some s =>
    if s = "" then now
    else match parseYMD s with
      | some d => dateToDT d
      | none => now
  | none => now

/-- Source: `EvaluationCRUD.update_evaluation_fields`: sets the five
evaluation-stage fields; `DB_CHECKER` is assigned the request value
unconditionally (so `None` clears it). -/
def update_evaluation_fields (r : DelegationRecord) (data : EvaluationRequest)
    (now : PyTime) : DelegationRecord :=
  { r with
    DB_EVALUATOR := some data.evaluator
    DB_EVAL_DECISION := some data.eval_decision
    DB_EVAL_REMARKS := some (orEmpty data.eval_remarks)
    DB_DATE_EVAL_END := some (parse_date data.date_eval_end now)
    DB_CHECKER := data.checker }

/-- Source: `EvaluationCRUD.evaluate_single`: not-found check, then the
decked precondition, then the field update and the commit. -/
def evaluate_single (db : DelegationTable) (db_main_id : Int)
    (data : EvaluationRequest) (now : PyTime) : EvalResult × DelegationTable :=
  match db.find? (byMainId db_main_id) with
  | none => (⟨false, "Record not found", 0⟩, db)
  | some record =>
    if !is_decked record then
      (⟨false, "Application is not yet decked (not assigned to evaluator)", 0⟩, db)
    else
      (⟨true, "Application evaluated successfully", 1⟩,
        updateFirst (byMainId db_main_id)
          (fun r => update_evaluation_fields r data now) db)

/-- The inline per-row mutation of `EvaluationCRUD.bulk_evaluate` (textually
the same five assignments as `update_evaluation_fields`). -/
def bulkEvalMutate (data : BulkEvaluationRequest) (now : PyTime)
    (r : DelegationRecord) : DelegationRecord :=
  { r with
    DB_EVALUATOR := some data.evaluator
    DB_EVAL_DECISION := some data.eval_decision
    DB_EVAL_REMARKS := some (orEmpty data.eval_remarks)
    DB_DATE_EVAL_END := some (parse_date data.date_eval_end now)
    DB_CHECKER := data.checker }

/-- Source: `EvaluationCRUD.bulk_evaluate`.  Missing ids produce failure
details with reason `Record not found` (the Python code iterates a set;
the embedding iterates them in request order, which only fixes an order the
source leaves unspecified).  Found rows failing the decked precondition
produce failure details; the rest are mutated, and the mutations are
committed iff at least one row was updated. -/
def bulk_evaluate (db : DelegationTable) (data : BulkEvaluationRequest)
    (now : PyTime) : BulkEvalResult × DelegationTable :=
  let records := db.filter (fun r => data.record_ids.contains r.DB_MAIN_ID)
  let found_ids := records.map (fun r => r.DB_MAIN_ID)
  let missing_ids := data.record_ids.filter (fun i => !found_ids.contains i)
  let missingDetails := missing_ids.map (fun i =>
    ({ id := i, status := "failed", reason := some "Record not found" } :
      BulkEvaluationDetail))
  let rowDetails := records.map (fun r =>
    if !is_decked r then
      ({ id := r.DB_MAIN_ID, status := "failed",
         reason := some "Application is not yet decked" } : BulkEvaluationDetail)
    else
      ({ id := r.DB_MAIN_ID, status := "success", reason := none } :
        BulkEvaluationDetail))
  let updated_count := (records.filter (fun r => is_decked r)).length
  let failed_count := missing_ids.length + (records.filter (fun r => !is_decked r)).length
  let committed :=
    if 0 < updated_count then
      db.map (fun r =>
        if data.record_ids.contains r.DB_MAIN_ID && is_decked r then
          bulkEvalMutate data now r
        else r)
    else db
  (⟨0 < updated_count,
    "Evaluated " ++ toString updated_count ++ " record(s), " ++
      toString failed_count ++ " failed",
    updated_count, failed_count, missingDetails ++ rowDetails⟩, committed)

/-- Request-construction step of the evaluation endpoints: pydantic runs
the field validators before any handler (and hence any database access)
runs.  `Except.error` is the 422 validation response. -/
def mkEvaluationRequest (evaluator eval_decision : String)
    (eval_remarks : Option String) (date_eval_end : Option String)
    (checker : Option String) : Except String EvaluationRequest :=
  match validate_date_format date_eval_end with
  | Except.error e => Except.error e
  | Except.ok d =>
    match validate_decision eval_decision with
    | Except.error e => Except.error e
    | Except.ok dec => Except.ok ⟨evaluator, dec, eval_remarks, d, checker⟩

/-- Request-construction step of `PATCH /evaluation/bulk`: the base field
validators plus `validate_record_ids`. -/
def mkBulkEvaluationRequest (evaluator eval_decision : String)
    (eval_remarks : Option String) (date_eval_end : Option String)
    (checker : Option String) (record_ids : List Int) :
    Except String BulkEvaluationRequest :=
  match validate_date_format date_eval_end with
  | Except.error e => Except.error e
  | Except.ok d =>
    match validate_decision eval_decision with
    | Except.error e => Except.error e
    | Except.ok dec =>
      match validate_record_ids record_ids with
      | Except.error e => Except.error e
      | Except.ok ids => Except.ok ⟨evaluator, dec, eval_remarks, d, checker, ids⟩

/-- The `PATCH /evaluation/single/{id}` endpoint as seen by a caller:
request validation, then the CRUD operation. -/
def evaluate_single_route (db : DelegationTable) (db_main_id : Int)
    (evaluator eval_decision : String) (eval_remarks date_eval_end checker : Option String)
    (now : PyTime) : Except String (EvalResult × DelegationTable) :=
  match mkEvaluationRequest evaluator eval_decision eval_remarks date_eval_end checker with
  | Except.error e => Except.error e
  | Except.ok req => Except.ok (evaluate_single db db_main_id req now)

/-- The `PATCH /evaluation/bulk` endpoint as seen by a caller: request
validation, then the CRUD operation. -/
def bulk_evaluate_route (db : DelegationTable)
    (evaluator eval_decision : String) (eval_remarks date_eval_end checker : Option String)
    (record_ids : List Int) (now : PyTime) :
    Except String (BulkEvalResult × DelegationTable) :=
  match mkBulkEvaluationRequest evaluator eval_decision eval_remarks
    date_eval_end checker record_ids with
  | Except.error e => Except.error e
  | Except.ok req => Except.ok (bulk_evaluate db req now)

/-- One row of the `main_db` table, restricted to the columns the listing,
trash and delegation logic reads.  The 1:1 `application_delegation`
relationship is embedded as an optional companion record. -/
structure MainRecord where
  DB_ID : Int
  DB_DTN : Option Int := none
  DB_EST_CAT : Option String := none
  DB_EST_LTO_COMP : Option String := none
  DB_PROD_BR_NAME : Option String := none
  DB_PROD_GEN_NAME : Option String := none
  DB_REG_NO : Option String := none
  DB_APP_STATUS : Option String := none
  DB_TRASH : Option String := none
  DB_TRASH_DATE_ENCODED : Option PyTime := none
  DB_DATE_EXCEL_UPLOAD : Option PyTime := none
  application_delegation : Option DelegationRecord := none
deriving DecidableEq

/-- The `main_db` table. -/
abbrev MainTable := List MainRecord

/-- Row predicate for `filter(MainDB.DB_ID == id)`. -/
def byDbId (i : Int) (m : MainRecord) : Bool :=
  m.DB_ID == i

/-- The evaluator reached through the outer join: `None` when the
application has no delegation row or the row's `DB_EVALUATOR` is NULL. -/
def evalField (m : MainRecord) : Option String :=
  m.application_delegation.bind (fun d => d.DB_EVALUATOR)

/-- Source: the `status == "decked"` filter of `get_main_db_records`
(inner join, then `DB_EVALUATOR IS NOT NULL AND != "" AND != "N/A"`). -/
def deckedFilterB (m : MainRecord) : Bool :=
  match m.application_delegation with
  | none => false
  | some d =>
    match d.DB_EVALUATOR with
    | none => false
    | some s => !(s = "") && !(s = "N/A")

/-- Source: the `status == "not_decked"` filter of `get_main_db_records`
(outer join, then `DB_EVALUATOR IS NULL OR == "" OR == "N/A"`). -/
def notDeckedFilterB (m : MainRecord) : Bool :=
  match m.application_delegation with
  | none => true
  | some d =>
    match d.DB_EVALUATOR with
    | none => true
    | some s => s = "" || s = "N/A"

/-- True iff the pattern occurs as a prefix of the character list. -/
def leadsChars : List Char → List Char → Bool
  | [], _ => true
  | _ :: _, [] => false
  | a :: as, b :: bs => a == b && leadsChars as bs

/-- True iff the pattern occurs contiguously inside the character list;
this is the `LIKE "%pat%"` test. -/
def isSubChars (pat : List Char) : List Char → Bool
  | [] => pat.isEmpty
  | b :: bs => leadsChars pat (b :: bs) || isSubChars pat bs

/-- SQL `col LIKE "%needle%"` on a nullable text column (NULL never
matches). -/
def likeContains (col : Option String) (needle : String) : Bool :=
  match col with
  | none => false
  | some s => isSubChars needle.data s.data

/-- Models `str.isdigit()` for the ASCII strings the search box sends. -/
def pyIsDigit (s : String) : Bool :=
  allDigits s.data

/-- The search disjunction of `get_main_db_records`: five `LIKE` columns
plus the DTN condition (`== int(search)` for an all-digit search, else a
`LIKE` on the DTN cast to a string). -/
def searchCondB (needle : String) (m : MainRecord) : Bool :=
  likeContains m.DB_EST_LTO_COMP needle ||
  likeContains m.DB_PROD_BR_NAME needle ||
  likeContains m.DB_PROD_GEN_NAME needle ||
  likeContains m.DB_REG_NO needle ||
  likeContains m.DB_EST_CAT needle ||
  (if pyIsDigit needle then m.DB_DTN == some ((natOfDigits needle.data : Nat) : Int)
   else likeContains (m.DB_DTN.map toString) needle)

/-- ORDER BY key comparison `nullslast(desc(col))` (also the behaviour of
a MySQL plain `DESC` on a nullable column, where NULL sorts lowest):
non-null before null, non-null keys in descending order. -/
def descNullsLastB : Option PyTime → Option PyTime → Bool
  | none, none => true
  | none, some _ => false
  | some _, none => true
  | some x, some y => decide (y ≤ x)

/-- ORDER BY key comparison `nullslast(col)` ascending: non-null before
null, non-null keys in ascending order. -/
def ascNullsLastB : Option PyTime → Option PyTime → Bool
  | none, none => true
  | none, some _ => false
  | some _, none => true
  | some x, some y => decide (x ≤ y)

/-- ORDER BY key comparison of a plain ascending MySQL sort on a nullable
column: NULL sorts lowest, so nulls come first. -/
def ascNullsFirstB : Option PyTime → Option PyTime → Bool
  | none, _ => true
  | some _, none => false
  | some x, some y => decide (x ≤ y)

/-- The delegation-stage date columns `get_main_db_records` can sort by. -/
def delegation_sort_fields : List String :=
  ["DB_DATE_DECKED_END", "DB_DATE_EVAL_END", "DB_DATE_CHECKER_END",
   "DB_DATE_SUPERVISOR_END", "DB_DATE_QA_END", "DB_DATE_DIRECTOR_END",
   "DB_RELEASING_OFFICER_END"]

/-- The delegation date column named `f`, read through the outer join. -/
def delegSortKey (f : String) (m : MainRecord) : Option PyTime :=
  m.application_delegation.bind (fun d =>
    if f = "DB_DATE_DECKED_END" then d.DB_DATE_DECKED_END
    else if f = "DB_DATE_EVAL_END" then d.DB_DATE_EVAL_END
    else if f = "DB_DATE_CHECKER_END" then d.DB_DATE_CHECKER_END
    else if f = "DB_DATE_SUPERVISOR_END" then d.DB_DATE_SUPERVISOR_END
    else if f = "DB_DATE_QA_END" then d.DB_DATE_QA_END
    else if f = "DB_DATE_DIRECTOR_END" then d.DB_DATE_DIRECTOR_END
    else d.DB_RELEASING_OFFICER_END)

/-- The sortable datetime-valued `MainDB` columns the embedding carries;
`getattr(MainDB, sort_by)` succeeds exactly on the modelled columns. -/
def mainSortKey (f : String) (m : MainRecord) : Option PyTime :=
  if f = "DB_DATE_EXCEL_UPLOAD" then m.DB_DATE_EXCEL_UPLOAD
  else m.DB_TRASH_DATE_ENCODED

/-- Columns for which `hasattr(MainDB, sort_by)` holds in the embedding. -/
def main_sort_fields : List String :=
  ["DB_DATE_EXCEL_UPLOAD", "DB_TRASH_DATE_ENCODED"]

/-- ASCII lower-casing of one character, as `str.lower()` acts on the
`asc`/`desc` strings this parameter carries. -/
def lowerChar (c : Char) : Char :=
  if 65 ≤ c.toNat ∧ c.toNat ≤ 90 then Char.ofNat (c.toNat + 32) else c

/-- Models `sort_order.lower() == "desc"`. -/
def lowerEqDesc (s : String) : Bool :=
  s.data.map lowerChar == "desc".data

/-- The ORDER BY row comparison chosen by `get_main_db_records` once the
sort column is known; ORDER BY itself is modelled as a stable insertion
sort with this relation. -/
def rowOrder (sort_by sort_order : String) (a b : MainRecord) : Prop :=
  if sort_by ∈ delegation_sort_fields then
    (if lowerEqDesc sort_order then
      descNullsLastB (delegSortKey sort_by a) (delegSortKey sort_by b)
    else ascNullsLastB (delegSortKey sort_by a) (delegSortKey sort_by b)) = true
  else if sort_by ∈ main_sort_fields then
    (if lowerEqDesc sort_order then
      descNullsLastB (mainSortKey sort_by a) (mainSortKey sort_by b)
    else ascNullsFirstB (mainSortKey sort_by a) (mainSortKey sort_by b)) = true
  else
    descNullsLastB a.DB_DATE_EXCEL_UPLOAD b.DB_DATE_EXCEL_UPLOAD = true

instance (sort_by sort_order : String) : DecidableRel (rowOrder sort_by sort_order) := by
  intro a b
  unfold rowOrder
  split
  · split <;> exact inferInstance
  · split
    · split <;> exact inferInstance
    · exact inferInstance

/-- Source: `get_main_db_records`.  Status filter, category filter, search
filter (in that order), `total = query.count()` before sorting, ORDER BY,
then `offset(skip).limit(limit)`.  No condition on `DB_TRASH` appears
anywhere in the query. -/
def get_main_db_records (db : MainTable) (skip limit : Nat)
    (search status category : Option String) (sort_by sort_order : String) :
    List MainRecord × Nat :=
  let q1 :=
    match status with
    | some s =>
      if s = "not_decked" then db.filter notDeckedFilterB
      else if s = "decked" then db.filter deckedFilterB
      else db
    | none => db
  let q2 :=
    match category with
    | some c => if c = "" then q1 else q1.filter (fun m => m.DB_EST_CAT == some c)
    | none => q1
  let q3 :=
    match search with
    | some s => if s = "" then q2 else q2.filter (searchCondB s)
    | none => q2
  let total := q3.length
  let sorted := List.insertionSort (rowOrder sort_by sort_order) q3
  ((sorted.drop skip).take limit, total)

/-- Source: `delete_main_db_record` (soft delete): finds the row, sets
`DB_TRASH = "deleted"` and `DB_TRASH_DATE_ENCODED = now`, commits. -/
def delete_main_db_record (db : MainTable) (record_id : Int) (now : PyTime) :
    Bool × MainTable :=
  match db.find? (byDbId record_id) with
  | none => (false, db)
  | some _ =>
    (true, updateFirst (byDbId record_id)
      (fun m => { m with DB_TRASH := some "deleted",
                         DB_TRASH_DATE_ENCODED := some now }) db)

/-- Source: the `restore_record` route handler: finds the row, clears
`DB_TRASH` and `DB_TRASH_DATE_ENCODED`, commits, returns the record
(`none` models the 404 branch). -/
def restore_record (db : MainTable) (record_id : Int) :
    Option MainRecord × MainTable :=
  match db.find? (byDbId record_id) with
  | none => (none, db)
  | some m =>
    (some { m with DB_TRASH := none, DB_TRASH_DATE_ENCODED := none },
      updateFirst (byDbId record_id)
        (fun x => { x with DB_TRASH := none, DB_TRASH_DATE_ENCODED := none }) db)

theorem find?_updateFirst {α : Type} (p : α → Bool) (f : α → α)
    (hp : ∀ x, p (f x) = p x) :
    ∀ l : List α, (updateFirst p f l).find? p = (l.find? p).map f
  | [] => rfl
  | a :: l => by
    by_cases h : p a = true
    · simp only [updateFirst, if_pos h]
      rw [List.find?_cons_of_pos _ ((hp a).trans h), List.find?_cons_of_pos _ h]
      rfl
    · simp only [updateFirst, if_neg h]
      rw [List.find?_cons_of_neg _ h, List.find?_cons_of_neg _ h,
        find?_updateFirst p f hp l]

theorem byMainId_deckMutate (i : Int) (d : DeckApplicationRequest) (now : PyTime)
    (r : DelegationRecord) : byMainId i (deckMutate d now r) = byMainId i r := rfl

theorem byMainId_update_evaluation_fields (i : Int) (d : EvaluationRequest)
    (now : PyTime) (r : DelegationRecord) :
    byMainId i (update_evaluation_fields r d now) = byMainId i r := rfl

/-- C1 counterexample record: its Decker-stage actor is the sentinel
`N/A` (and so is its Evaluator-stage actor). -/
def c1Record : DelegationRecord :=
  { DB_MAIN_ID := 1, DB_DECKER := some "N/A", DB_EVALUATOR := some "N/A" }

/-- C1 counterexample request. -/
def c1Request : EvaluationRequest :=
  { evaluator := "Eve", eval_decision := "approved" }

/-- C1 is false as stated: on a record whose Decker-stage actor is the
sentinel `N/A` (its Evaluator-stage actor is even `N/A` too), the single
Evaluate operation succeeds instead of failing with the not-yet-decked
precondition error. -/
theorem c1_counterexample :
    c1Record.DB_DECKER = some "N/A" ∧
    c1Record.DB_EVALUATOR = some "N/A" ∧
    (evaluate_single [c1Record] 1 c1Request 0).1.success = true ∧
    (evaluate_single [c1Record] 1 c1Request 0).1.message =
      "Application evaluated successfully" := by
  refine ⟨rfl, rfl, ?_, ?_⟩ <;> decide

/-- C1 (amended): the single Evaluate operation fails with the
not-yet-decked precondition error exactly when the record's
Evaluator-stage actor (`DB_EVALUATOR`) is NULL or has no non-whitespace
character; the Decker-stage actor is never consulted, and the sentinel
`N/A` counts as decked (so evaluation then succeeds). -/
theorem c1_amended (db : DelegationTable) (id : Int) (data : EvaluationRequest)
    (now : PyTime) (r : DelegationRecord)
    (h : db.find? (byMainId id) = some r) :
    ((evaluate_single db id data now).1.success = false ↔ is_decked r = false) ∧
    (is_decked r = false →
      (evaluate_single db id data now).1.message =
        "Application is not yet decked (not assigned to evaluator)") ∧
    (is_decked r = hasNonWs r.DB_EVALUATOR) ∧
    (r.DB_EVALUATOR = some "N/A" →
      (evaluate_single db id data now).1.success = true) := by
  refine ⟨?_, ?_, rfl, ?_⟩
  · unfold evaluate_single
    rw [h]
    cases hd : is_decked r <;> simp [hd]
  · intro hd
    unfold evaluate_single
    rw [h]
    simp [hd]
  · intro hv
    have hd : is_decked r = true := by
      unfold is_decked
      rw [hv]
      decide
    unfold evaluate_single
    rw [h]
    simp [hd]

/-- C1 amended witness: a record with an empty evaluator field is
rejected as not yet decked. -/
def c1WitnessRecord : DelegationRecord := { DB_MAIN_ID := 3, DB_EVALUATOR := some " " }

/-- Witness for the amended C1 theorem at a concrete one-row table. -/
theorem c1_amended_witness :
    ((evaluate_single [c1WitnessRecord] 3 c1Request 0).1.success = false ↔
      is_decked c1WitnessRecord = false) ∧
    (is_decked c1WitnessRecord = false →
      (evaluate_single [c1WitnessRecord] 3 c1Request 0).1.message =
        "Application is not yet decked (not assigned to evaluator)") ∧
    (is_decked c1WitnessRecord = hasNonWs c1WitnessRecord.DB_EVALUATOR) ∧
    (c1WitnessRecord.DB_EVALUATOR = some "N/A" →
      (evaluate_single [c1WitnessRecord] 3 c1Request 0).1.success = true) :=
  c1_amended [c1WitnessRecord] 3 c1Request 0 c1WitnessRecord (by decide)

/-- C2: the single Deck operation fails (with the not-found message) iff
no delegation row exists for the id; when a row exists it always succeeds
with `updated_count = 1`, silently overwrites the row via `deckMutate`,
and, when the row was already decked, appends the previous evaluator's
name to the success message. -/
theorem c2_deck_single (db : DelegationTable) (id : Int)
    (req : DeckApplicationRequest) (now : PyTime) (r : DelegationRecord) :
    ((deck_single_application db id req now).1.success = false ↔
      db.find? (byMainId id) = none) ∧
    (db.find? (byMainId id) = none →
      (deck_single_application db id req now).1.message =
        "Application record with DB_MAIN_ID " ++ toString id ++ " not found") ∧
    (db.find? (byMainId id) = some r →
      (deck_single_application db id req now).1.success = true ∧
      (deck_single_application db id req now).1.updated_count = 1 ∧
      ((deck_single_application db id req now).2).find? (byMainId id) =
        some (deckMutate req now r) ∧
      (deck_single_application db id req now).1.message =
        (if check_if_already_decked r then
          "Application (DTN: " ++ pyShowOptInt r.main_dtn ++ ") decked successfully" ++
            " (was previously decked by: " ++ pyShowOptStr r.DB_EVALUATOR ++ ")"
        else
          "Application (DTN: " ++ pyShowOptInt r.main_dtn ++ ") decked successfully")) := by
  refine ⟨?_, ?_, ?_⟩
  · unfold deck_single_application
    cases hf : db.find? (byMainId id) <;> simp [hf]
  · intro hf
    unfold deck_single_application
    rw [hf]
  · intro hf
    unfold deck_single_application
    rw [hf]
    refine ⟨rfl, rfl, ?_, ?_⟩
    · rw [find?_updateFirst (byMainId id) (deckMutate req now)
        (byMainId_deckMutate id req now), hf]
      rfl
    · cases hd : check_if_already_decked r <;> simp [hd]

/-- Witness table for C2: one decked row. -/
def c2Record : DelegationRecord :=
  { DB_MAIN_ID := 7, main_dtn := some 321, DB_EVALUATOR := some "Bob" }

/-- Witness request for C2/C3. -/
def c2Request : DeckApplicationRequest :=
  { decker := "Dana", evaluator := "Eve", deckerDecision := "for evaluation" }

/-- Witness for the C2 theorem at a concrete one-row table. -/
theorem c2_deck_single_witness :
    (((deck_single_application [c2Record] 7 c2Request 4).1.success = false ↔
      List.find? (byMainId 7) [c2Record] = none) ∧
    (List.find? (byMainId 7) [c2Record] = none →
      (deck_single_application [c2Record] 7 c2Request 4).1.message =
        "Application record with DB_MAIN_ID " ++ toString (7 : Int) ++ " not found") ∧
    (List.find? (byMainId 7) [c2Record] = some c2Record →
      (deck_single_application [c2Record] 7 c2Request 4).1.success = true ∧
      (deck_single_application [c2Record] 7 c2Request 4).1.updated_count = 1 ∧
      ((deck_single_application [c2Record] 7 c2Request 4).2).find? (byMainId 7) =
        some (deckMutate c2Request 4 c2Record) ∧
      (deck_single_application [c2Record] 7 c2Request 4).1.message =
        (if check_if_already_decked c2Record then
          "Application (DTN: " ++ pyShowOptInt c2Record.main_dtn ++ ") decked successfully" ++
            " (was previously decked by: " ++ pyShowOptStr c2Record.DB_EVALUATOR ++ ")"
        else
          "Application (DTN: " ++ pyShowOptInt c2Record.main_dtn ++ ") decked successfully"))) :=
  c2_deck_single [c2Record] 7 c2Request 4 c2Record

/-- C3: on an existing row, the single Deck operation commits a row whose
Evaluator-stage actor is the request's evaluator, whose Decker-stage
actor/decision/remarks are the request values, whose `DB_DATE_DECKED`
attribute is now, and whose `DB_DATE_DECKED_END` is the request date
parsed as `%Y-%m-%d`, or now when the date is absent or does not parse. -/
theorem c3_deck_single_fields (db : DelegationTable) (id : Int)
    (req : DeckApplicationRequest) (now : PyTime) (r : DelegationRecord)
    (s : String) (d : YmdDate)
    (h : db.find? (byMainId id) = some r) :
    ((deck_single_application db id req now).2).find? (byMainId id) =
      some (deckMutate req now r) ∧
    (deckMutate req now r).DB_EVALUATOR = some req.evaluator ∧
    (deckMutate req now r).DB_DECKER = some req.decker ∧
    (deckMutate req now r).DB_DECKER_DECISION = some req.deckerDecision ∧
    (deckMutate req now r).DB_DECKER_REMARKS = some (orEmpty req.deckerRemarks) ∧
    (deckMutate req now r).DB_DATE_DECKED = some now ∧
    (req.dateDeckedEnd = some s → parseYMD s = some d →
      (deckMutate req now r).DB_DATE_DECKED_END = some (dateToDT d)) ∧
    (req.dateDeckedEnd = none →
      (deckMutate req now r).DB_DATE_DECKED_END = some now) ∧
    (req.dateDeckedEnd = some s → parseYMD s = none →
      (deckMutate req now r).DB_DATE_DECKED_END = some now) := by
  refine ⟨?_, rfl, rfl, rfl, rfl, rfl, ?_, ?_, ?_⟩
  · unfold deck_single_application
    rw [h]
    rw [find?_updateFirst (byMainId id) (deckMutate req now)
      (byMainId_deckMutate id req now), h]
    rfl
  · intro hs hp
    have hse : ¬s = "" := by
      intro he
      rw [he] at hp
      exact Option.noConfusion ((by decide : parseYMD "" = none).symm.trans hp)
    simp [deckMutate, deckEndDate, hs, hse, hp]
  · intro hs
    simp [deckMutate, deckEndDate, hs]
  · intro hs hp
    by_cases hse : s = ""
    · simp [deckMutate, deckEndDate, hs, hse]
    · simp [deckMutate, deckEndDate, hs, hse, hp]

/-- Witness for C3 at a concrete table, with a parseable request date. -/
theorem c3_deck_single_fields_witness :
    (((deck_single_application [c2Record] 7
        { c2Request with dateDeckedEnd := some "2024-06-30" } 4).2).find? (byMainId 7) =
      some (deckMutate { c2Request with dateDeckedEnd := some "2024-06-30" } 4 c2Record) ∧
    (deckMutate { c2Request with dateDeckedEnd := some "2024-06-30" } 4 c2Record).DB_EVALUATOR =
      some ({ c2Request with dateDeckedEnd := some "2024-06-30" } : DeckApplicationRequest).evaluator ∧
    (deckMutate { c2Request with dateDeckedEnd := some "2024-06-30" } 4 c2Record).DB_DECKER =
      some ({ c2Request with dateDeckedEnd := some "2024-06-30" } : DeckApplicationRequest).decker ∧
    (deckMutate { c2Request with dateDeckedEnd := some "2024-06-30" } 4 c2Record).DB_DECKER_DECISION =
      some ({ c2Request with dateDeckedEnd := some "2024-06-30" } : DeckApplicationRequest).deckerDecision ∧
    (deckMutate { c2Request with dateDeckedEnd := some "2024-06-30" } 4 c2Record).DB_DECKER_REMARKS =
      some (orEmpty ({ c2Request with dateDeckedEnd := some "2024-06-30" } : DeckApplicationRequest).deckerRemarks) ∧
    (deckMutate { c2Request with dateDeckedEnd := some "2024-06-30" } 4 c2Record).DB_DATE_DECKED =
      some 4 ∧
    (({ c2Request with dateDeckedEnd := some "2024-06-30" } : DeckApplicationRequest).dateDeckedEnd =
        some "2024-06-30" → parseYMD "2024-06-30" = some ⟨2024, 6, 30⟩ →
      (deckMutate { c2Request with dateDeckedEnd := some "2024-06-30" } 4 c2Record).DB_DATE_DECKED_END =
        some (dateToDT ⟨2024, 6, 30⟩)) ∧
    (({ c2Request with dateDeckedEnd := some "2024-06-30" } : DeckApplicationRequest).dateDeckedEnd = none →
      (deckMutate { c2Request with dateDeckedEnd := some "2024-06-30" } 4 c2Record).DB_DATE_DECKED_END =
        some 4) ∧
    (({ c2Request with dateDeckedEnd := some "2024-06-30" } : DeckApplicationRequest).dateDeckedEnd =
        some "2024-06-30" → parseYMD "2024-06-30" = none →
      (deckMutate { c2Request with dateDeckedEnd := some "2024-06-30" } 4 c2Record).DB_DATE_DECKED_END =
        some 4)) :=
  c3_deck_single_fields [c2Record] 7 { c2Request with dateDeckedEnd := some "2024-06-30" } 4
    c2Record "2024-06-30" ⟨2024, 6, 30⟩ (by decide)

theorem find?_map_presv {α : Type} (p : α → Bool) (g : α → α)
    (hp : ∀ x, p (g x) = p x) :
    ∀ l : List α, (l.map g).find? p = (l.find? p).map g
  | [] => rfl
  | a :: l => by
    by_cases h : p a = true
    · rw [List.map_cons, List.find?_cons_of_pos _ ((hp a).trans h),
        List.find?_cons_of_pos _ h]
      rfl
    · rw [List.map_cons, List.find?_cons_of_neg _ (by rw [hp]; exact h),
        List.find?_cons_of_neg _ h, find?_map_presv p g hp l]

/-- C4 counterexample record A (id 1); id 2 has no row. -/
def c4Record : DelegationRecord := { DB_MAIN_ID := 1 }

/-- C4 counterexample request: bulk-deck ids `[1, 2]`. -/
def c4Request : BulkDeckApplicationRequest :=
  { decker := "Dana", evaluator := "Eve", deckerDecision := "for evaluation",
    record_ids := [1, 2] }

/-- C4 is false as stated: bulk-decking `[1, 2]` against a table holding
only id 1 yields `updated_count = 1` but `failed_count = 0`, and no
detail entry at all mentions the missing id 2. -/
theorem c4_counterexample :
    (bulk_deck_applications [c4Record] c4Request 0).1.updated_count = 1 ∧
    (bulk_deck_applications [c4Record] c4Request 0).1.failed_count = 0 ∧
    (bulk_deck_applications [c4Record] c4Request 0).1.details.all
      (fun dd => !(dd.id == (2 : Int))) = true ∧
    (bulk_deck_applications [c4Record] c4Request 0).1.success = true := by
  refine ⟨?_, ?_, ?_, ?_⟩ <;> decide

/-- C4 (amended): when the id list of a bulk Deck request contains an
existing record A and an id B with no row, the operation succeeds with
`updated_count` equal to the number of existing rows among the ids and
`failed_count = 0`; the missing id B is silently skipped, receiving no
detail entry, while A's mutation is committed. -/
theorem c4_amended (db : DelegationTable) (req : BulkDeckApplicationRequest)
    (now : PyTime) (ra : DelegationRecord) (aid bid : Int)
    (ha : db.find? (byMainId aid) = some ra)
    (hamem : aid ∈ req.record_ids)
    (hb : db.all (fun r => !(r.DB_MAIN_ID == bid)) = true) :
    (bulk_deck_applications db req now).1.success = true ∧
    (bulk_deck_applications db req now).1.updated_count =
      (db.filter (fun r => req.record_ids.contains r.DB_MAIN_ID)).length ∧
    (bulk_deck_applications db req now).1.failed_count = 0 ∧
    (bulk_deck_applications db req now).1.details.all
      (fun dd => !(dd.id == bid)) = true ∧
    ((bulk_deck_applications db req now).2).find? (byMainId aid) =
      some (deckMutate (bulkDeckData req) now ra) := by
  have hida : ra.DB_MAIN_ID = aid := by
    have := List.find?_some ha
    simpa [byMainId] using this
  have hmem : ra ∈ db := List.mem_of_find?_eq_some ha
  have hcont : req.record_ids.contains ra.DB_MAIN_ID = true := by
    rw [hida]
    simp [List.contains]
    exact hamem
  have hrec : ra ∈ db.filter (fun r => req.record_ids.contains r.DB_MAIN_ID) :=
    List.mem_filter.mpr ⟨hmem, hcont⟩
  have hne : req.record_ids ≠ [] := by
    intro he
    rw [he] at hamem
    exact List.not_mem_nil aid hamem
  have hrne : db.filter (fun r => req.record_ids.contains r.DB_MAIN_ID) ≠ [] :=
    List.ne_nil_of_mem hrec
  unfold bulk_deck_applications
  rw [if_neg hne, if_neg hrne]
  refine ⟨rfl, rfl, rfl, ?_, ?_⟩
  · simp only [List.all_eq_true]
    intro dd hdd
    obtain ⟨r, hr, rfl⟩ := List.mem_map.mp hdd
    have hrdb : r ∈ db := (List.mem_filter.mp hr).1
    have h2 := (List.all_eq_true.mp hb) r hrdb
    simpa using h2
  · show (List.map (fun r => if req.record_ids.contains r.DB_MAIN_ID = true then
        deckMutate (bulkDeckData req) now r else r) db).find? (byMainId aid) = _
    rw [find?_map_presv (byMainId aid)
      (fun r => if req.record_ids.contains r.DB_MAIN_ID = true then
        deckMutate (bulkDeckData req) now r else r)
      (fun x => by
        show byMainId aid (if req.record_ids.contains x.DB_MAIN_ID = true then
          deckMutate (bulkDeckData req) now x else x) = byMainId aid x
        by_cases hx : req.record_ids.contains x.DB_MAIN_ID = true
        · rw [if_pos hx]
          exact byMainId_deckMutate aid (bulkDeckData req) now x
        · rw [if_neg hx]), ha]
    rw [Option.map_some', if_pos hcont]

/-- Witness for the amended C4 theorem: table `[A]` with A's id 1,
request ids `[1, 2]`. -/
theorem c4_amended_witness :
    ((bulk_deck_applications [c4Record] c4Request 0).1.success = true ∧
    (bulk_deck_applications [c4Record] c4Request 0).1.updated_count =
      ([c4Record].filter (fun r => c4Request.record_ids.contains r.DB_MAIN_ID)).length ∧
    (bulk_deck_applications [c4Record] c4Request 0).1.failed_count = 0 ∧
    (bulk_deck_applications [c4Record] c4Request 0).1.details.all
      (fun dd => !(dd.id == (2 : Int))) = true ∧
    ((bulk_deck_applications [c4Record] c4Request 0).2).find? (byMainId 1) =
      some (deckMutate (bulkDeckData c4Request) 0 c4Record)) :=
  c4_amended [c4Record] c4Request 0 c4Record 1 2 (by decide) (by decide) (by decide)

/-- Helper: an invalid id list makes `validate_record_ids` fail. -/
theorem validate_record_ids_rejects (ids : List Int)
    (hbad : ids = [] ∨ ¬ids.Nodup ∨ ids.any (fun x => decide (x ≤ 0)) = true) :
    ∀ out : List Int, validate_record_ids ids ≠ Except.ok out := by
  intro out
  unfold validate_record_ids
  rcases hbad with h | h | h
  · rw [if_pos h]
    exact fun hc => Except.noConfusion hc
  · have hne : ids ≠ [] := by
      intro he
      exact h (he ▸ List.nodup_nil)
    rw [if_neg hne, if_pos (by simp [h])]
    exact fun hc => Except.noConfusion hc
  · have hne : ids ≠ [] := by
      intro he
      rw [he] at h
      exact Bool.noConfusion h
    rw [if_neg hne]
    by_cases hnd : ids.Nodup
    · rw [if_neg (by simp [hnd]), if_pos h]
      exact fun hc => Except.noConfusion hc
    · rw [if_pos (by simp [hnd])]
      exact fun hc => Except.noConfusion hc

/-- C5: a bulk Evaluate body whose `record_ids` is empty, has duplicates,
or has a non-positive id is rejected during request validation — the
route's outcome is then independent of the database state, i.e. decided
before any database access; a list passing the checks is returned
unchanged by the validator, and ids without a row produce a
`Record not found` failure detail in the per-id processing. -/
theorem c5_bulk_validation (db db2 : DelegationTable) (ev dec : String)
    (rem date chk : Option String) (ids : List Int) (i : Int) (now : PyTime)
    (req : BulkEvaluationRequest) :
    ((ids = [] ∨ ¬ids.Nodup ∨ ids.any (fun x => decide (x ≤ 0)) = true) →
      (bulk_evaluate_route db ev dec rem date chk ids now).isOk = false ∧
      bulk_evaluate_route db ev dec rem date chk ids now =
        bulk_evaluate_route db2 ev dec rem date chk ids now) ∧
    (ids ≠ [] → ids.Nodup → ids.all (fun x => decide (0 < x)) = true →
      validate_record_ids ids = Except.ok ids) ∧
    (i ∈ req.record_ids → db.all (fun r => !(r.DB_MAIN_ID == i)) = true →
      ({ id := i, status := "failed", reason := some "Record not found" } :
        BulkEvaluationDetail) ∈ (bulk_evaluate db req now).1.details) := by
  refine ⟨?_, ?_, ?_⟩
  · intro hbad
    have hids := validate_record_ids_rejects ids hbad
    unfold bulk_evaluate_route mkBulkEvaluationRequest
    cases hdate : validate_date_format date with
    | error e => simp [hdate, Except.isOk, Except.toBool]
    | ok dv =>
      cases hdec : validate_decision dec with
      | error e => simp [hdate, hdec, Except.isOk, Except.toBool]
      | ok cv =>
        cases hv : validate_record_ids ids with
        | error e => simp [hdate, hdec, hv, Except.isOk, Except.toBool]
        | ok out => exact absurd hv (hids out)
  · intro h1 h2 h3
    unfold validate_record_ids
    rw [if_neg h1, if_neg (by simp [h2]), if_neg ?hany]
    case hany =>
      have : ids.any (fun rid => decide (rid ≤ 0)) = false := by
        rw [List.any_eq_false]
        intro x hx
        have := List.all_eq_true.mp h3 x hx
        simp at this ⊢
        omega
      simp [this]
  · intro himem hb
    have hfc : i ∈ ids.filter
        (fun x => !((db.filter (fun r => req.record_ids.contains r.DB_MAIN_ID)).map
          (fun r => r.DB_MAIN_ID)).contains x) → True := fun _ => trivial
    have hnotfound : ((db.filter (fun r => req.record_ids.contains r.DB_MAIN_ID)).map
        (fun r => r.DB_MAIN_ID)).contains i = false := by
      cases hc : ((db.filter (fun r => req.record_ids.contains r.DB_MAIN_ID)).map
          (fun r => r.DB_MAIN_ID)).contains i with
      | false => rfl
      | true =>
        exfalso
        have hmm : i ∈ (db.filter (fun r => req.record_ids.contains r.DB_MAIN_ID)).map
            (fun r => r.DB_MAIN_ID) := by
          simpa [List.contains] using hc
        obtain ⟨r, hrf, hri⟩ := List.mem_map.mp hmm
        have hrdb := (List.mem_filter.mp hrf).1
        have := List.all_eq_true.mp hb r hrdb
        rw [hri] at this
        simp at this
    have hmiss : i ∈ req.record_ids.filter
        (fun x => !((db.filter (fun r => req.record_ids.contains r.DB_MAIN_ID)).map
          (fun r => r.DB_MAIN_ID)).contains x) :=
      List.mem_filter.mpr ⟨himem, by rw [hnotfound]; rfl⟩
    show _ ∈ (bulk_evaluate db req now).1.details
    simp only [bulk_evaluate]
    refine List.mem_append.mpr (Or.inl ?_)
    exact List.mem_map.mpr ⟨i, hmiss, rfl⟩

/-- C5 witness table: one decked row with id 1. -/
def c5Record : DelegationRecord := { DB_MAIN_ID := 1, DB_EVALUATOR := some "Eve" }

/-- C5 witness request: ids `[1, 2]`, where id 2 has no row. -/
def c5Request : BulkEvaluationRequest :=
  { evaluator := "Eve", eval_decision := "approved", record_ids := [1, 2] }

/-- Witness for C5: the validator accepts `[1, 2]`, and the missing id 2
receives a `Record not found` failure detail. -/
theorem c5_bulk_validation_witness :
    validate_record_ids [1, 2] = Except.ok [1, 2] ∧
    ({ id := 2, status := "failed", reason := some "Record not found" } :
      BulkEvaluationDetail) ∈ (bulk_evaluate [c5Record] c5Request 0).1.details :=
  ⟨(c5_bulk_validation [c5Record] [] "Eve" "approved" (some "") none none
      [1, 2] 2 0 c5Request).2.1 (by decide) (by decide) (by decide),
    (c5_bulk_validation [c5Record] [] "Eve" "approved" (some "") none none
      [1, 2] 2 0 c5Request).2.2 (by decide) (by decide)⟩

theorem byDbId_presv_trash (i : Int) (now : PyTime) (m : MainRecord) :
    byDbId i { m with DB_TRASH := some "deleted", DB_TRASH_DATE_ENCODED := some now } =
      byDbId i m := rfl

theorem byDbId_presv_clear (i : Int) (m : MainRecord) :
    byDbId i { m with DB_TRASH := none, DB_TRASH_DATE_ENCODED := none } =
      byDbId i m := rfl

/-- Helper: membership in a full page (`skip = 0`, `limit` at least the
table size) of a sorted list is membership in the unsorted list. -/
theorem mem_listing_core (sb so : String) (l : List MainRecord) (n : Nat)
    (hn : l.length ≤ n) (m : MainRecord) :
    m ∈ ((List.insertionSort (rowOrder sb so) l).drop 0).take n ↔ m ∈ l := by
  rw [List.drop_zero, List.take_of_length_le
    (le_trans (le_of_eq (List.perm_insertionSort (rowOrder sb so) l).length_eq) hn)]
  exact (List.perm_insertionSort (rowOrder sb so) l).mem_iff

/-- Helper: a row with a delegation record is decked exactly when it is
not not-decked. -/
theorem decked_compl_of_isSome (m : MainRecord)
    (h : m.application_delegation.isSome = true) :
    deckedFilterB m = !notDeckedFilterB m := by
  obtain ⟨d, hd⟩ := Option.isSome_iff_exists.mp h
  cases he : d.DB_EVALUATOR with
  | none => simp [deckedFilterB, notDeckedFilterB, hd, he]
  | some s => simp [deckedFilterB, notDeckedFilterB, hd, he, Bool.not_or]

/-- C6: with a full page and no other filters, `status=decked` returns
exactly the rows passing the decked filter, `status=not_decked` exactly
those passing the not-decked filter; the decked filter holds exactly when
the joined evaluator is non-null, non-empty and not `N/A`, the not-decked
filter holds exactly on the complementary evaluator values, and over rows
that have a delegation record the two listings are complementary (so the
two result sets are disjoint and jointly cover those rows). -/
theorem c6_status_partition (db : MainTable) (m : MainRecord) :
    (m ∈ (get_main_db_records db 0 db.length none (some "decked") none
        "DB_DATE_EXCEL_UPLOAD" "desc").1 ↔ m ∈ db ∧ deckedFilterB m = true) ∧
    (m ∈ (get_main_db_records db 0 db.length none (some "not_decked") none
        "DB_DATE_EXCEL_UPLOAD" "desc").1 ↔ m ∈ db ∧ notDeckedFilterB m = true) ∧
    (deckedFilterB m = true ↔
      (¬evalField m = none ∧ ¬evalField m = some "" ∧ ¬evalField m = some "N/A")) ∧
    (notDeckedFilterB m = true ↔
      (evalField m = none ∨ evalField m = some "" ∨ evalField m = some "N/A")) ∧
    (m ∈ db → m.application_delegation.isSome = true →
      (m ∈ (get_main_db_records db 0 db.length none (some "decked") none
          "DB_DATE_EXCEL_UPLOAD" "desc").1 ↔
        ¬m ∈ (get_main_db_records db 0 db.length none (some "not_decked") none
          "DB_DATE_EXCEL_UPLOAD" "desc").1)) := by
  have hdecked : m ∈ (get_main_db_records db 0 db.length none (some "decked") none
      "DB_DATE_EXCEL_UPLOAD" "desc").1 ↔ m ∈ db ∧ deckedFilterB m = true := by
    rw [show (get_main_db_records db 0 db.length none (some "decked") none
        "DB_DATE_EXCEL_UPLOAD" "desc").1 =
      ((List.insertionSort (rowOrder "DB_DATE_EXCEL_UPLOAD" "desc")
        (db.filter deckedFilterB)).drop 0).take db.length from rfl]
    rw [mem_listing_core _ _ _ _ (List.length_filter_le _ db) m]
    exact List.mem_filter
  have hnot : m ∈ (get_main_db_records db 0 db.length none (some "not_decked") none
      "DB_DATE_EXCEL_UPLOAD" "desc").1 ↔ m ∈ db ∧ notDeckedFilterB m = true := by
    rw [show (get_main_db_records db 0 db.length none (some "not_decked") none
        "DB_DATE_EXCEL_UPLOAD" "desc").1 =
      ((List.insertionSort (rowOrder "DB_DATE_EXCEL_UPLOAD" "desc")
        (db.filter notDeckedFilterB)).drop 0).take db.length from rfl]
    rw [mem_listing_core _ _ _ _ (List.length_filter_le _ db) m]
    exact List.mem_filter
  refine ⟨hdecked, hnot, ?_, ?_, ?_⟩
  · cases hd : m.application_delegation with
    | none => simp [deckedFilterB, evalField, hd]
    | some d =>
      cases he : d.DB_EVALUATOR with
      | none => simp [deckedFilterB, evalField, hd, he]
      | some s => simp [deckedFilterB, evalField, hd, he]
  · cases hd : m.application_delegation with
    | none => simp [notDeckedFilterB, evalField, hd]
    | some d =>
      cases he : d.DB_EVALUATOR with
      | none => simp [notDeckedFilterB, evalField, hd, he]
      | some s => simp [notDeckedFilterB, evalField, hd, he]
  · intro hm hs
    rw [hdecked, hnot, decked_compl_of_isSome m hs]
    cases notDeckedFilterB m <;> simp [hm]

/-- C6 witness rows: one decked, one not decked. -/
def c6DeckedRow : MainRecord :=
  { DB_ID := 1, application_delegation :=
      some { DB_MAIN_ID := 1, DB_EVALUATOR := some "Eve" } }

/-- C6 witness row without an evaluator. -/
def c6NotDeckedRow : MainRecord :=
  { DB_ID := 2, application_delegation := some { DB_MAIN_ID := 2 } }

/-- Witness for C6 on a concrete two-row table. -/
theorem c6_status_partition_witness :
    (c6DeckedRow ∈ (get_main_db_records [c6DeckedRow, c6NotDeckedRow] 0 2 none
        (some "decked") none "DB_DATE_EXCEL_UPLOAD" "desc").1 ↔
      c6DeckedRow ∈ [c6DeckedRow, c6NotDeckedRow] ∧ deckedFilterB c6DeckedRow = true) ∧
    (c6DeckedRow ∈ (get_main_db_records [c6DeckedRow, c6NotDeckedRow] 0 2 none
        (some "decked") none "DB_DATE_EXCEL_UPLOAD" "desc").1 ↔
      ¬c6DeckedRow ∈ (get_main_db_records [c6DeckedRow, c6NotDeckedRow] 0 2 none
        (some "not_decked") none "DB_DATE_EXCEL_UPLOAD" "desc").1) :=
  ⟨(c6_status_partition [c6DeckedRow, c6NotDeckedRow] c6DeckedRow).1,
    (c6_status_partition [c6DeckedRow, c6NotDeckedRow] c6DeckedRow).2.2.2.2
      (by decide) (by decide)⟩

/-- C7 counterexample row. -/
def c7Record : MainRecord := { DB_ID := 1 }

/-- C7 is false as stated: soft-deleting the only row sets the trash
marker, yet the trashed row still appears in the default listing (first
page, default sort) — the listing never filters on `DB_TRASH`. -/
theorem c7_counterexample :
    (delete_main_db_record [c7Record] 1 5).1 = true ∧
    (((delete_main_db_record [c7Record] 1 5).2.find? (byDbId 1)).map
      (fun m => m.DB_TRASH)) = some (some "deleted") ∧
    ({ c7Record with DB_TRASH := some "deleted", DB_TRASH_DATE_ENCODED := some 5 } :
        MainRecord) ∈
      (get_main_db_records (delete_main_db_record [c7Record] 1 5).2 0 10 none none none
        "DB_DATE_EXCEL_UPLOAD" "desc").1 := by
  refine ⟨rfl, rfl, ?_⟩
  decide

/-- C7 (amended): soft delete sets the trash marker and trash timestamp
and restore clears both, after which the row is listed unchanged; but the
listing query has no trash filter at all, so membership in the default
listing is the same as membership in the table — a soft-deleted record is
not excluded. -/
theorem c7_amended (db : MainTable) (id : Int) (now : PyTime) (r m : MainRecord)
    (sb so : String)
    (h : db.find? (byDbId id) = some r) :
    (delete_main_db_record db id now).1 = true ∧
    ((delete_main_db_record db id now).2).find? (byDbId id) =
      some { r with DB_TRASH := some "deleted", DB_TRASH_DATE_ENCODED := some now } ∧
    (restore_record ((delete_main_db_record db id now).2) id).1 =
      some { r with DB_TRASH := none, DB_TRASH_DATE_ENCODED := none } ∧
    ((restore_record ((delete_main_db_record db id now).2) id).2).find? (byDbId id) =
      some { r with DB_TRASH := none, DB_TRASH_DATE_ENCODED := none } ∧
    (m ∈ (get_main_db_records db 0 db.length none none none sb so).1 ↔ m ∈ db) := by
  have hdel2 : ((delete_main_db_record db id now).2).find? (byDbId id) =
      some { r with DB_TRASH := some "deleted", DB_TRASH_DATE_ENCODED := some now } := by
    unfold delete_main_db_record
    rw [h]
    rw [find?_updateFirst (byDbId id)
      (fun m => { m with DB_TRASH := some "deleted", DB_TRASH_DATE_ENCODED := some now })
      (fun x => byDbId_presv_trash id now x), h]
    rfl
  refine ⟨?_, hdel2, ?_, ?_, ?_⟩
  · unfold delete_main_db_record
    rw [h]
  · unfold restore_record
    rw [hdel2]
  · unfold restore_record
    rw [hdel2]
    rw [find?_updateFirst (byDbId id)
      (fun x => { x with DB_TRASH := none, DB_TRASH_DATE_ENCODED := none })
      (fun x => byDbId_presv_clear id x), hdel2]
    rfl
  · rw [show (get_main_db_records db 0 db.length none none none sb so).1 =
      ((List.insertionSort (rowOrder sb so) db).drop 0).take db.length from rfl]
    exact mem_listing_core sb so db db.length (le_refl _) m

/-- Witness for the amended C7 theorem on a concrete one-row table. -/
theorem c7_amended_witness :
    ((delete_main_db_record [c7Record] 1 5).1 = true ∧
    ((delete_main_db_record [c7Record] 1 5).2).find? (byDbId 1) =
      some { c7Record with DB_TRASH := some "deleted", DB_TRASH_DATE_ENCODED := some 5 } ∧
    (restore_record ((delete_main_db_record [c7Record] 1 5).2) 1).1 =
      some { c7Record with DB_TRASH := none, DB_TRASH_DATE_ENCODED := none } ∧
    ((restore_record ((delete_main_db_record [c7Record] 1 5).2) 1).2).find? (byDbId 1) =
      some { c7Record with DB_TRASH := none, DB_TRASH_DATE_ENCODED := none } ∧
    (c7Record ∈ (get_main_db_records [c7Record] 0 1 none none none
        "DB_DATE_EXCEL_UPLOAD" "desc").1 ↔ c7Record ∈ [c7Record])) :=
  c7_amended [c7Record] 1 5 c7Record c7Record "DB_DATE_EXCEL_UPLOAD" "desc" (by decide)

theorem descNullsLastB_total (a b : Option PyTime) :
    descNullsLastB a b = true ∨ descNullsLastB b a = true := by
  cases a <;> cases b <;> simp [descNullsLastB]
  exact le_total _ _

theorem descNullsLastB_trans (a b c : Option PyTime)
    (h1 : descNullsLastB a b = true) (h2 : descNullsLastB b c = true) :
    descNullsLastB a c = true := by
  cases a <;> cases b <;> cases c <;> simp_all [descNullsLastB]
  exact le_trans h2 h1

theorem ascNullsLastB_total (a b : Option PyTime) :
    ascNullsLastB a b = true ∨ ascNullsLastB b a = true := by
  cases a <;> cases b <;> simp [ascNullsLastB]
  exact le_total _ _

theorem ascNullsLastB_trans (a b c : Option PyTime)
    (h1 : ascNullsLastB a b = true) (h2 : ascNullsLastB b c = true) :
    ascNullsLastB a c = true := by
  cases a <;> cases b <;> cases c <;> simp_all [ascNullsLastB]
  exact le_trans h1 h2

theorem ascNullsFirstB_total (a b : Option PyTime) :
    ascNullsFirstB a b = true ∨ ascNullsFirstB b a = true := by
  cases a <;> cases b <;> simp [ascNullsFirstB]
  exact le_total _ _

theorem ascNullsFirstB_trans (a b c : Option PyTime)
    (h1 : ascNullsFirstB a b = true) (h2 : ascNullsFirstB b c = true) :
    ascNullsFirstB a c = true := by
  cases a <;> cases b <;> cases c <;> simp_all [ascNullsFirstB]
  exact le_trans h1 h2

instance (sb so : String) : IsTotal MainRecord (rowOrder sb so) := by
  constructor
  intro a b
  unfold rowOrder
  split_ifs
  · exact descNullsLastB_total _ _
  · exact ascNullsLastB_total _ _
  · exact descNullsLastB_total _ _
  · exact ascNullsFirstB_total _ _
  · exact descNullsLastB_total _ _

instance (sb so : String) : IsTrans MainRecord (rowOrder sb so) := by
  constructor
  intro a b c h1 h2
  unfold rowOrder at h1 h2 ⊢
  split_ifs at h1 h2 ⊢
  · exact descNullsLastB_trans _ _ _ h1 h2
  · exact ascNullsLastB_trans _ _ _ h1 h2
  · exact descNullsLastB_trans _ _ _ h1 h2
  · exact ascNullsFirstB_trans _ _ _ h1 h2
  · exact descNullsLastB_trans _ _ _ h1 h2

theorem getD_of_lt {α : Type} (l : List α) (d : α) (i : Nat) (h : i < l.length) :
    l.getD i d = l.get ⟨i, h⟩ := by
  simp [List.getD_eq_getElem?_getD, List.getElem?_eq_getElem h]

/-- C9: in a listing sorted by a delegation-stage date column with
`sort_order=desc` (full page, no filters), a null-keyed row is never
followed by a non-null-keyed row, and among non-null keys the later row's
date is at most the earlier row's date. -/
theorem c9_sort_desc_nulls_last (db : MainTable) (f : String) (d0 : MainRecord)
    (i j : Nat) (x y : PyTime)
    (hf : f ∈ delegation_sort_fields) (hij : i < j)
    (hj : j < ((get_main_db_records db 0 db.length none none none f "desc").1).length) :
    (delegSortKey f
        (((get_main_db_records db 0 db.length none none none f "desc").1).getD i d0) =
          none →
      delegSortKey f
        (((get_main_db_records db 0 db.length none none none f "desc").1).getD j d0) =
          none) ∧
    (delegSortKey f
        (((get_main_db_records db 0 db.length none none none f "desc").1).getD i d0) =
          some x →
      delegSortKey f
        (((get_main_db_records db 0 db.length none none none f "desc").1).getD j d0) =
          some y →
      y ≤ x) := by
  have hsorted : ((get_main_db_records db 0 db.length none none none f "desc").1).Sorted
      (rowOrder f "desc") := by
    rw [show (get_main_db_records db 0 db.length none none none f "desc").1 =
      ((List.insertionSort (rowOrder f "desc") db).drop 0).take db.length from rfl,
      List.drop_zero]
    exact List.Pairwise.sublist (List.take_sublist _ _)
      (List.sorted_insertionSort (rowOrder f "desc") db)
  have hi : i < ((get_main_db_records db 0 db.length none none none f "desc").1).length :=
    lt_trans hij hj
  have hrel := hsorted.rel_get_of_lt
    (a := ⟨i, hi⟩) (b := ⟨j, hj⟩) (Fin.mk_lt_mk.mpr hij)
  rw [rowOrder, if_pos hf, if_pos (by decide : lowerEqDesc "desc" = true)] at hrel
  rw [getD_of_lt _ d0 i hi, getD_of_lt _ d0 j hj]
  constructor
  · intro hni
    rw [hni] at hrel
    cases hkj : delegSortKey f
        (((get_main_db_records db 0 db.length none none none f "desc").1).get ⟨j, hj⟩) with
    | none => rfl
    | some v =>
      rw [hkj] at hrel
      exact absurd hrel (by simp [descNullsLastB])
  · intro hki hkj
    rw [hki, hkj] at hrel
    simpa [descNullsLastB] using hrel

/-- C9 witness rows: a row with a null evaluation end date and one with a
non-null date. -/
def c9NullRow : MainRecord :=
  { DB_ID := 1, application_delegation := some { DB_MAIN_ID := 1 } }

/-- C9 witness row carrying an evaluation end date. -/
def c9DatedRow : MainRecord :=
  { DB_ID := 2, application_delegation :=
      some { DB_MAIN_ID := 2, DB_DATE_EVAL_END := some 9 } }

/-- Witness for C9 on a concrete two-row table sorted descending by
evaluation end date. -/
theorem c9_sort_desc_nulls_last_witness :
    (delegSortKey "DB_DATE_EVAL_END"
        (((get_main_db_records [c9NullRow, c9DatedRow] 0 2 none none none
          "DB_DATE_EVAL_END" "desc").1).getD 0 c9NullRow) = none →
      delegSortKey "DB_DATE_EVAL_END"
        (((get_main_db_records [c9NullRow, c9DatedRow] 0 2 none none none
          "DB_DATE_EVAL_END" "desc").1).getD 1 c9NullRow) = none) ∧
    (delegSortKey "DB_DATE_EVAL_END"
        (((get_main_db_records [c9NullRow, c9DatedRow] 0 2 none none none
          "DB_DATE_EVAL_END" "desc").1).getD 0 c9NullRow) = some 9 →
      delegSortKey "DB_DATE_EVAL_END"
        (((get_main_db_records [c9NullRow, c9DatedRow] 0 2 none none none
          "DB_DATE_EVAL_END" "desc").1).getD 1 c9NullRow) = some 3 →
      (3 : PyTime) ≤ 9) :=
  c9_sort_desc_nulls_last [c9NullRow, c9DatedRow] "DB_DATE_EVAL_END" c9NullRow
    0 1 9 3 (by decide) (by decide) (by decide)

/-- C8 is false as stated: an Evaluate request whose `date_eval_end` does
not parse as `%Y-%m-%d` is rejected by the request validator with a date
format error — the malformed date is reported, not silently replaced. -/
theorem c8_counterexample :
    parseYMD "01/02/2024" = none ∧
    evaluate_single_route [] 1 "Eve" "approved" none (some "01/02/2024") none 0 =
      Except.error "Date must be in YYYY-MM-DD format" := by
  constructor
  · decide
  · rfl

/-- C8 (amended): for Deck requests the claim holds — a `dateDeckedEnd`
that does not parse is swallowed and the decked end date is set to now,
with no error reported; for Evaluate requests it does not hold — a
malformed `date_eval_end` is rejected by request validation with a date
format error before the CRUD layer (whose now-fallback therefore only
fires for absent dates). -/
theorem c8_amended (db dbe : DelegationTable) (id ide : Int)
    (req : DeckApplicationRequest) (now : PyTime) (r : DelegationRecord)
    (s : String) (ev dec : String) (rem chk : Option String)
    (h : db.find? (byMainId id) = some r)
    (hs : req.dateDeckedEnd = some s)
    (hp : parseYMD s = none) :
    (deck_single_application db id req now).1.success = true ∧
    (((deck_single_application db id req now).2).find? (byMainId id)).map
      (fun z => z.DB_DATE_DECKED_END) = some (some now) ∧
    evaluate_single_route dbe ide ev dec rem (some s) chk now =
      Except.error "Date must be in YYYY-MM-DD format" := by
  refine ⟨?_, ?_, ?_⟩
  · unfold deck_single_application
    rw [h]
  · unfold deck_single_application
    rw [h]
    show ((updateFirst (byMainId id) (deckMutate req now) db).find? (byMainId id)).map
      (fun z => z.DB_DATE_DECKED_END) = some (some now)
    rw [find?_updateFirst (byMainId id) (deckMutate req now)
      (byMainId_deckMutate id req now), h]
    simp only [Option.map_some']
    show some (some (deckEndDate req.dateDeckedEnd now)) = some (some now)
    rw [hs]
    by_cases hse : s = ""
    · simp [deckEndDate, hse]
    · simp [deckEndDate, hse, hp]
  · have hval : validate_date_format (some s) =
        Except.error "Date must be in YYYY-MM-DD format" := by
      unfold validate_date_format
      simp [hp]
    unfold evaluate_single_route mkEvaluationRequest
    rw [hval]

/-- Witness record for C8's amended theorem. -/
def c8Record : DelegationRecord := { DB_MAIN_ID := 4, DB_EVALUATOR := some "Eve" }

/-- Witness request for C8's amended theorem, carrying a malformed date. -/
def c8Request : DeckApplicationRequest :=
  { decker := "Dana", evaluator := "Eve", deckerDecision := "ok",
    dateDeckedEnd := some "31-12-2024" }

/-- Witness for the amended C8 theorem at concrete inputs. -/
theorem c8_amended_witness :
    ((deck_single_application [c8Record] 4 c8Request 6).1.success = true ∧
    (((deck_single_application [c8Record] 4 c8Request 6).2).find? (byMainId 4)).map
      (fun z => z.DB_DATE_DECKED_END) = some (some 6) ∧
    evaluate_single_route [] 1 "Eve" "approved" none (some "31-12-2024") none 6 =
      Except.error "Date must be in YYYY-MM-DD format") :=
  c8_amended [c8Record] [] 4 1 c8Request 6 c8Record "31-12-2024" "Eve" "approved"
    none none (by decide) (by decide) (by decide)

/-- C10: the single-evaluate field update and the bulk-evaluate per-row
update write only the Evaluator-stage fields and the Checker-stage actor:
every Decker, Checker-decision/remarks/date, Supervisor, QA, Director and
Releasing-Officer field (and the row identity) is unchanged; the
Checker-stage actor is set to exactly the request's `checker`, which
defaults to `none` when the field is omitted, so omitting `checker`
clears a previously assigned checker; and on a decked row the single
Evaluate operation commits exactly this per-row update. -/
theorem c10_evaluate_frame (r : DelegationRecord) (data : EvaluationRequest)
    (bdata : BulkEvaluationRequest) (db : DelegationTable) (id : Int)
    (now : PyTime) (ev dec : String) :
    (update_evaluation_fields r data now).DB_MAIN_ID = r.DB_MAIN_ID ∧
    (update_evaluation_fields r data now).main_dtn = r.main_dtn ∧
    (update_evaluation_fields r data now).DB_DECKER = r.DB_DECKER ∧
    (update_evaluation_fields r data now).DB_DECKER_DECISION = r.DB_DECKER_DECISION ∧
    (update_evaluation_fields r data now).DB_DECKER_REMARKS = r.DB_DECKER_REMARKS ∧
    (update_evaluation_fields r data now).DB_DATE_DECKED = r.DB_DATE_DECKED ∧
    (update_evaluation_fields r data now).DB_DATE_DECKED_END = r.DB_DATE_DECKED_END ∧
    (update_evaluation_fields r data now).DB_CHECKER_DECISION = r.DB_CHECKER_DECISION ∧
    (update_evaluation_fields r data now).DB_CHECKER_REMARKS = r.DB_CHECKER_REMARKS ∧
    (update_evaluation_fields r data now).DB_DATE_CHECKER_END = r.DB_DATE_CHECKER_END ∧
    (update_evaluation_fields r data now).DB_SUPERVISOR = r.DB_SUPERVISOR ∧
    (update_evaluation_fields r data now).DB_SUPERVISOR_DECISION = r.DB_SUPERVISOR_DECISION ∧
    (update_evaluation_fields r data now).DB_SUPERVISOR_REMARKS = r.DB_SUPERVISOR_REMARKS ∧
    (update_evaluation_fields r data now).DB_DATE_SUPERVISOR_END = r.DB_DATE_SUPERVISOR_END ∧
    (update_evaluation_fields r data now).DB_QA = r.DB_QA ∧
    (update_evaluation_fields r data now).DB_QA_DECISION = r.DB_QA_DECISION ∧
    (update_evaluation_fields r data now).DB_QA_REMARKS = r.DB_QA_REMARKS ∧
    (update_evaluation_fields r data now).DB_DATE_QA_END = r.DB_DATE_QA_END ∧
    (update_evaluation_fields r data now).DB_DIRECTOR = r.DB_DIRECTOR ∧
    (update_evaluation_fields r data now).DB_DIRECTOR_DECISION = r.DB_DIRECTOR_DECISION ∧
    (update_evaluation_fields r data now).DB_DIRECTOR_REMARKS = r.DB_DIRECTOR_REMARKS ∧
    (update_evaluation_fields r data now).DB_DATE_DIRECTOR_END = r.DB_DATE_DIRECTOR_END ∧
    (update_evaluation_fields r data now).DB_RELEASING_OFFICER = r.DB_RELEASING_OFFICER ∧
    (update_evaluation_fields r data now).DB_RELEASING_OFFICER_DECISION =
      r.DB_RELEASING_OFFICER_DECISION ∧
    (update_evaluation_fields r data now).DB_RELEASING_OFFICER_REMARKS =
      r.DB_RELEASING_OFFICER_REMARKS ∧
    (update_evaluation_fields r data now).DB_RELEASING_OFFICER_END =
      r.DB_RELEASING_OFFICER_END ∧
    (bulkEvalMutate bdata now r).DB_MAIN_ID = r.DB_MAIN_ID ∧
    (bulkEvalMutate bdata now r).main_dtn = r.main_dtn ∧
    (bulkEvalMutate bdata now r).DB_DECKER = r.DB_DECKER ∧
    (bulkEvalMutate bdata now r).DB_DECKER_DECISION = r.DB_DECKER_DECISION ∧
    (bulkEvalMutate bdata now r).DB_DECKER_REMARKS = r.DB_DECKER_REMARKS ∧
    (bulkEvalMutate bdata now r).DB_DATE_DECKED = r.DB_DATE_DECKED ∧
    (bulkEvalMutate bdata now r).DB_DATE_DECKED_END = r.DB_DATE_DECKED_END ∧
    (bulkEvalMutate bdata now r).DB_CHECKER_DECISION = r.DB_CHECKER_DECISION ∧
    (bulkEvalMutate bdata now r).DB_CHECKER_REMARKS = r.DB_CHECKER_REMARKS ∧
    (bulkEvalMutate bdata now r).DB_DATE_CHECKER_END = r.DB_DATE_CHECKER_END ∧
    (bulkEvalMutate bdata now r).DB_SUPERVISOR = r.DB_SUPERVISOR ∧
    (bulkEvalMutate bdata now r).DB_SUPERVISOR_DECISION = r.DB_SUPERVISOR_DECISION ∧
    (bulkEvalMutate bdata now r).DB_SUPERVISOR_REMARKS = r.DB_SUPERVISOR_REMARKS ∧
    (bulkEvalMutate bdata now r).DB_DATE_SUPERVISOR_END = r.DB_DATE_SUPERVISOR_END ∧
    (bulkEvalMutate bdata now r).DB_QA = r.DB_QA ∧
    (bulkEvalMutate bdata now r).DB_QA_DECISION = r.DB_QA_DECISION ∧
    (bulkEvalMutate bdata now r).DB_QA_REMARKS = r.DB_QA_REMARKS ∧
    (bulkEvalMutate bdata now r).DB_DATE_QA_END = r.DB_DATE_QA_END ∧
    (bulkEvalMutate bdata now r).DB_DIRECTOR = r.DB_DIRECTOR ∧
    (bulkEvalMutate bdata now r).DB_DIRECTOR_DECISION = r.DB_DIRECTOR_DECISION ∧
    (bulkEvalMutate bdata now r).DB_DIRECTOR_REMARKS = r.DB_DIRECTOR_REMARKS ∧
    (bulkEvalMutate bdata now r).DB_DATE_DIRECTOR_END = r.DB_DATE_DIRECTOR_END ∧
    (bulkEvalMutate bdata now r).DB_RELEASING_OFFICER = r.DB_RELEASING_OFFICER ∧
    (bulkEvalMutate bdata now r).DB_RELEASING_OFFICER_DECISION =
      r.DB_RELEASING_OFFICER_DECISION ∧
    (bulkEvalMutate bdata now r).DB_RELEASING_OFFICER_REMARKS =
      r.DB_RELEASING_OFFICER_REMARKS ∧
    (bulkEvalMutate bdata now r).DB_RELEASING_OFFICER_END =
      r.DB_RELEASING_OFFICER_END ∧
    (update_evaluation_fields r data now).DB_CHECKER = data.checker ∧
    (bulkEvalMutate bdata now r).DB_CHECKER = bdata.checker ∧
    ({ evaluator := ev, eval_decision := dec } : EvaluationRequest).checker = none ∧
    (update_evaluation_fields r { evaluator := ev, eval_decision := dec } now).DB_CHECKER =
      none ∧
    (db.find? (byMainId id) = some r → is_decked r = true →
      (evaluate_single db id data now).2 =
        updateFirst (byMainId id) (fun z => update_evaluation_fields z data now) db) := by
  refine ⟨rfl, rfl, rfl, rfl, rfl, rfl, rfl, rfl, rfl, rfl, rfl, rfl, rfl, rfl, rfl, rfl,
    rfl, rfl, rfl, rfl, rfl, rfl, rfl, rfl, rfl, rfl, rfl, rfl, rfl, rfl, rfl, rfl, rfl,
    rfl, rfl, rfl, rfl, rfl, rfl, rfl, rfl, rfl, rfl, rfl, rfl, rfl, rfl, rfl, rfl, rfl,
    rfl, rfl, rfl, rfl, rfl, rfl, ?_⟩
  intro h hd
  unfold evaluate_single
  rw [h]
  simp [hd]

/-- Witness for the C10 frame theorem on a concrete decked record. -/
theorem c10_evaluate_frame_witness :
    (evaluate_single [c8Record] 4
        { evaluator := "Eve", eval_decision := "approved" } 2).2 =
      updateFirst (byMainId 4)
        (fun z => update_evaluation_fields z
          { evaluator := "Eve", eval_decision := "approved" } 2) [c8Record] ∧
    (update_evaluation_fields c8Record
      { evaluator := "Eve", eval_decision := "approved" } 2).DB_CHECKER = none :=
  ⟨(c10_evaluate_frame c8Record { evaluator := "Eve", eval_decision := "approved" }
      { evaluator := "Eve", eval_decision := "approved", record_ids := [4] }
      [c8Record] 4 2 "Eve" "approved").2.2.2.2.2.2.2.2.2.2.2.2.2.2.2.2.2.2.2.2.2.2.2.2.2.2.2.2.2.2.2.2.2.2.2.2.2.2.2.2.2.2.2.2.2.2.2.2.2.2.2.2.2.2.2.2
      (by decide) (by decide),
    (c10_evaluate_frame c8Record { evaluator := "Eve", eval_decision := "approved" }
      { evaluator := "Eve", eval_decision := "approved", record_ids := [4] }
      [c8Record] 4 2 "Eve" "approved").2.2.2.2.2.2.2.2.2.2.2.2.2.2.2.2.2.2.2.2.2.2.2.2.2.2.2.2.2.2.2.2.2.2.2.2.2.2.2.2.2.2.2.2.2.2.2.2.2.2.2.2.2.2.2.1⟩
